import Mathlib

/-!
Verification development for the `stream-deck-teams-avatar` plugin.

The JavaScript source (two action classes, `TeamsAvatar` and `TeamsRotating`)
is shallowly embedded below.  Canvas rendering is modelled as a display list
of drawing operations (`DrawOp`); `canvas.toDataURL('image/png')` is modelled
as the constructor `Img.png` applied to the display list, while an image blob
fetched from the webhook (whose MIME type is whatever the server sent, e.g.
`image/jpeg`) is `Img.blob`.  Timers, the Stream Deck websocket, `setTitle`
and logging are external collaborators and are not part of the embedded
state transitions; network fetch outcomes are passed in explicitly as a
`FetchOutcome` parameter.
-/

namespace TeamsPlugin

/-- A single 2D-canvas drawing operation, parametrised by the type used for
source images (`ctx.drawImage`).  `alpha` records the `globalAlpha` in force
when the operation ran; `lineWidth` records `ctx.lineWidth` for strokes. -/
inductive DrawOp (α : Type) where
  | fillRect (color : String) (alpha : ℚ)
  | drawImage (img : α) (alpha : ℚ)
  | strokeText (text : String) (color : String) (lineWidth : ℚ) (alpha : ℚ)
  | fillText (text : String) (color : String) (alpha : ℚ)
deriving Repr

/-- An encoded image (a data URL in the source).  `blob` is a fetched binary
body converted by `blobToDataUrl` (MIME type preserved from the response);
`png` is `canvas.toDataURL('image/png')` of a canvas holding the given
display list. -/
inductive Img where
  | blob (id : Nat) (mime : String)
  | png (ops : List (DrawOp Img))
deriving Repr

/-- MIME type of the encoded image (the `data:<mime>` prefix of the URL). -/
def Img.mime : Img → String
  | .blob _ m => m
  | .png _ => "image/png"

/-- Embedding of `overlayCountOnImage(imageDataUrl, count)` (identical in
`TeamsAvatar` and `TeamsRotating`): draw the base image onto a fresh
144x144 canvas; if `count > 0` additionally stroke and fill the decimal
count (stroke `#000000`, width 5, at `globalAlpha` 0.5; white fill at 0.5 —
the code sets `globalAlpha = 0.5` before the stroke and resets it only after
the fill); finally return `canvas.toDataURL('image/png')`. -/
def overlayCountOnImage (imageDataUrl : Img) (count : Nat) : Img :=
  Img.png
    ([DrawOp.drawImage imageDataUrl 1] ++
      (if count > 0 then
        [DrawOp.strokeText (toString count) "#000000" 5 (1/2),
         DrawOp.fillText (toString count) "#ffffff" (1/2)]
      else []))

/-- Embedding of `generateTransitionFrames` (TeamsRotating): for
`frame = 0..24` (the loop bound is `frame <= 24`, i.e. 25 iterations),
clear with black, draw the current image at `globalAlpha = 1 - frame/24`,
then the next image at `globalAlpha = frame/24`, and push the canvas PNG. -/
def generateTransitionFrames (currentAvatarImage nextAvatarImage : Img) : List Img :=
  (List.range 25).map (fun (frame : ℕ) =>
    Img.png
      [DrawOp.fillRect "#000000" 1,
       DrawOp.drawImage currentAvatarImage (1 - (frame : ℚ) / 24),
       DrawOp.drawImage nextAvatarImage ((frame : ℚ) / 24)])

/-- JavaScript `ToInt32`: wrap an integer to the 32-bit signed range
`[-2^31, 2^31)`.  This is what the `a & a` step in the hash performs. -/
def toInt32 (n : Int) : Int := (n + 2 ^ 31) % 2 ^ 32 - 2 ^ 31

/-- One step of the hash in `generateInitialsImage`:
`a = ((a << 5) - a) + charCode; a = a & a`.  `a << 5` is itself a 32-bit
operation (`ToInt32(32*a)`), the subtraction and addition are exact float
arithmetic, and `a & a` reduces the result to 32-bit signed again. -/
def jsHashStep (a : Int) (charCode : Nat) : Int :=
  toInt32 (toInt32 (32 * a) - a + charCode)

/-- The rolling hash over the full display name (`reduce` with seed 0). -/
def jsHash (displayName : String) : Int :=
  displayName.data.foldl (fun a c => jsHashStep a c.toNat) 0

/-- The fixed 8-colour pastel palette of `TeamsRotating.generateInitialsImage`. -/
def colors : List String :=
  ["#B0C4DE", "#98FB98", "#FFB6C1", "#FFDAB9",
   "#DDA0DD", "#AFEEEE", "#D3D3D3", "#FFFACD"]

/-- `charAt(0).toUpperCase()` of a token (empty string for an empty token). -/
def firstUpper (s : String) : String :=
  match s.data with
  | [] => ""
  | c :: _ => String.mk [c.toUpper]

/-- The computed initials: split on spaces, drop empty tokens, map each to
its uppercased first character, take the first two, join. -/
def computedInitials (displayName : String) : String :=
  String.join ((((displayName.splitOn " ").filter (fun n => n.length > 0)).map
    firstUpper).take 2)

/-- Embedding of `TeamsRotating.generateInitialsImage(displayName,
defaultInitials)`: `initials = defaultInitials || <computed>` (JS truthiness:
`null` and the empty string both fall through), background colour
`colors[Math.abs(hash) % colors.length]`, then background fill, black
2px-stroked initials, white filled initials. -/
def generateInitialsImage (displayName : String)
    (defaultInitials : Option String := none) : Img :=
  let initials :=
    match defaultInitials with
    | some s => if s.length > 0 then s else computedInitials displayName
    | none => computedInitials displayName
  Img.png
    [DrawOp.fillRect (colors.getD ((jsHash displayName).natAbs % colors.length) "") 1,
     DrawOp.strokeText initials "#000000" 2 1,
     DrawOp.fillText initials "#ffffff" 1]

/-- One entry of the rotating webhook's JSON array.  `count`, `displayName`
and `fromType` may be absent in the response (`Option`); the code reads them
with JS defaulting (`|| 0`, `|| userId`, truthiness checks). -/
structure User where
  userId : String
  displayName : Option String := none
  count : Option Nat := none
  fromType : Option String := none
deriving Repr, DecidableEq

/-- `user.count || 0` — the count with the JS default. -/
def countD (u : User) : Nat := u.count.getD 0

/-- `usersData.sort((a, b) => (b.count || 0) - (a.count || 0))`.
`Array.prototype.sort` is a stable sort (ES2019); with this comparator the
result is the unique stable non-increasing-by-count reordering, which is
exactly `List.insertionSort` with the non-strict relation
`countD a ≥ countD b` (an element is inserted before the first element whose
count is not larger, hence before all later equal-count elements). -/
def sortUsersByCountDesc (l : List User) : List User :=
  l.insertionSort (fun a b => countD b ≤ countD a)

/-- JavaScript `Array.prototype.findIndex`: index of the first match, or -1. -/
def findIndexJs (p : User → Bool) : List User → Int
  | [] => -1
  | u :: us =>
    if p u then 0
    else if findIndexJs p us = -1 then -1 else findIndexJs p us + 1

/-- The roster-processing core of `TeamsRotating.fetchUsersData` after a
successful fetch of `usersData`: sort by count descending, then re-anchor
`currentUserIndex` — keep the previously-current user's position if its
`userId` is found in the new list, else 0 (also 0 when there was no
previously-current user, i.e. `this.users[this.currentUserIndex]` was
`undefined`).  Returns the new `(users, currentUserIndex)`. -/
def fetchUsersReanchor (oldUsers : List User) (oldIndex : Nat)
    (usersData : List User) : List User × Nat :=
  (sortUsersByCountDesc usersData,
    match oldUsers.get? oldIndex with
    | none => 0
    | some currentUser =>
      if findIndexJs (fun u => u.userId == currentUser.userId)
          (sortUsersByCountDesc usersData) = -1 then 0
      else (findIndexJs (fun u => u.userId == currentUser.userId)
          (sortUsersByCountDesc usersData)).toNat)

/-- The avatar cache: a map from cache key to composited image (`Map` in the
source; modelled as an association list where insertion prepends). -/
def Cache := List (String × Img)

/-- `avatarCache.get`/`has` — most recent binding wins. -/
def Cache.lookup (c : Cache) (key : String) : Option Img :=
  List.lookup key c

/-- `avatarCache.set(key, img)`. -/
def Cache.set (c : Cache) (key : String) (img : Img) : Cache :=
  (key, img) :: c

/-- The carousel cache key \x7b`userId`_`count`\x7d. -/
def cacheKey (u : User) : String := u.userId ++ "_" ++ toString (countD u)

/-- Outcome of one `fetch` of the avatar webhook: `ok` with the response
blob (as a data URL, MIME from the response), non-OK HTTP status
(`response.ok === false`), or a thrown network/transport error. -/
inductive FetchOutcome where
  | ok (blob : Img)
  | httpError
  | networkError
deriving Repr

/-- `user.displayName || user.userId` (JS truthiness: absent or empty
display name falls back to the id). -/
def displayNameOr (u : User) : String :=
  match u.displayName with
  | some s => if s.length > 0 then s else u.userId
  | none => u.userId

/-- `user.displayName === 'Workflows' ? 'WF' : null` (bot branches only). -/
def overrideFor (u : User) : Option String :=
  if u.displayName = some "Workflows" then some "WF" else none

/-- Result of one avatar resolution in the carousel
(`prefetchNextAvatar` / `prefetchCurrentAvatar`, which run the identical
decision chain on `nextAvatarImage` resp. `currentAvatarImage`):
the produced image (none when the guard on a missing `userId` fired),
the cache afterwards, and whether fetch/synthesis work was performed. -/
structure PrefetchResult where
  image : Option Img
  cache : Cache
  didWork : Bool

/-- Embedding of the shared body of `TeamsRotating.prefetchNextAvatar` and
`TeamsRotating.prefetchCurrentAvatar` for a given roster entry `u`
(the caller picks the next resp. current entry; the `isFetchingNext` /
`isFetchingCurrent` re-entrancy guards and the empty-roster guard are
session-level no-ops that perform no resolution).  Decision chain:
missing `userId` → bail out; cache hit → cached image, no work;
bot → initials (with the `Workflows → WF` override), badge, cache;
no avatar webhook URL configured → initials, badge, cache;
fetch OK → blob, badge, cache; HTTP failure or thrown network error →
initials fallback, badge, cache (the error is logged, never propagated). -/
def prefetchAvatar (cache : Cache) (u : User) (avatarWebhookUrl : Option String)
    (outcome : FetchOutcome) : PrefetchResult :=
  if u.userId.length = 0 then ⟨none, cache, false⟩
  else
    let count := countD u
    let key := cacheKey u
    match cache.lookup key with
    | some img => ⟨some img, cache, false⟩
    | none =>
      if u.fromType = some "bot" then
        let img := overlayCountOnImage
          (generateInitialsImage (displayNameOr u) (overrideFor u)) count
        ⟨some img, cache.set key img, true⟩
      else
        match avatarWebhookUrl with
        | none =>
          let img := overlayCountOnImage (generateInitialsImage (displayNameOr u)) count
          ⟨some img, cache.set key img, true⟩
        | some url =>
          if url.length = 0 then
            let img := overlayCountOnImage (generateInitialsImage (displayNameOr u)) count
            ⟨some img, cache.set key img, true⟩
          else
            match outcome with
            | .ok blob =>
              let img := overlayCountOnImage blob count
              ⟨some img, cache.set key img, true⟩
            | .httpError =>
              let img := overlayCountOnImage (generateInitialsImage (displayNameOr u)) count
              ⟨some img, cache.set key img, true⟩
            | .networkError =>
              let img := overlayCountOnImage (generateInitialsImage (displayNameOr u)) count
              ⟨some img, cache.set key img, true⟩

/-- Embedding of the avatar-resolution part of `TeamsAvatar.fetchData`
(single-avatar mode; the cache is keyed by the configured email alone):
cache hit → use cached base image; else fetch `?user=<email>`; on OK cache
the blob; on a non-OK HTTP status nothing happens (`avatarImage` keeps its
previous value, nothing is cached, no fallback of any kind); a thrown
network error propagates to `fetchData`'s catch block, which displays the
static error image (third component `true`). -/
def fetchDataAvatarStep (cache : Cache) (email : String)
    (avatarImage : Option Img) (outcome : FetchOutcome) :
    Option Img × Cache × Bool :=
  match cache.lookup email with
  | some img => (some img, cache, false)
  | none =>
    match outcome with
    | .ok blob => (some blob, cache.set email blob, false)
    | .httpError => (avatarImage, cache, false)
    | .networkError => (avatarImage, cache, true)

/-- The mutable per-instance state of a `TeamsRotating` session that the
display/transition functions below read and write.  Timer handles, the
in-flight fetch flags and the settings object are external to these
transitions; `lastDisplayedState` is the dedup key of the last write. -/
structure RotState where
  users : List User
  currentUserIndex : Nat
  currentAvatarImage : Option Img
  nextAvatarImage : Option Img
  isTransitioning : Bool
  transitionFrames : List Img
  currentFrameIndex : Nat
  lastDisplayedState : Option String
deriving Repr

/-- The static "No Users" image (`generateNoUsersImage`). -/
def noUsersImage : Img :=
  Img.png [DrawOp.fillRect "#666666" 1, DrawOp.fillText "No Users" "#ffffff" 1]

/-- `setImageIfChanged(context, image, stateKey)`: skip the write when the
last displayed state equals `stateKey`, else record the key and write.
Second component: the image actually written to the device, if any. -/
def setImageIfChangedS (s : RotState) (image : Img) (stateKey : String) :
    RotState × Option Img :=
  if s.lastDisplayedState = some stateKey then (s, none)
  else ({ s with lastDisplayedState := some stateKey }, some image)

/-- Embedding of `TeamsRotating.updateDisplay` (image path; `setTitle` is an
external side effect not modelled): empty roster → "No Users" via the dedup
guard; otherwise build the state key
`avatar:<userId>_<count>_<index>` (an out-of-range index makes
`currentUser?.userId` the string `"undefined"`), then write the current
avatar image through the dedup guard, or fall back to the next avatar image
(promoting it to current and clearing the next slot), or write nothing when
both slots are empty. -/
def updateDisplay (s : RotState) : RotState × Option Img :=
  if s.users.length = 0 then
    setImageIfChangedS s noUsersImage "noUsers"
  else
    let currentUser := s.users.get? s.currentUserIndex
    let count := (currentUser.bind User.count).getD 0
    let uidStr :=
      match currentUser with
      | some u => u.userId
      | none => "undefined"
    let stateKey :=
      "avatar:" ++ uidStr ++ "_" ++ toString count ++ "_" ++ toString s.currentUserIndex
    match s.currentAvatarImage with
    | some img => setImageIfChangedS s img stateKey
    | none =>
      match s.nextAvatarImage with
      | some img =>
        let r := setImageIfChangedS s img stateKey
        ({ r.1 with currentAvatarImage := some img, nextAvatarImage := none }, r.2)
      | none => (s, none)

/-- Embedding of `TeamsRotating.showNextUser`: empty roster → "No Users";
else advance the index modulo the roster length, unconditionally promote
`nextAvatarImage` to `currentAvatarImage` (even when it is `null`), clear
the next slot, and update the display.  (`prefetchNextAvatar` is kicked off
fire-and-forget and is modelled separately by `prefetchAvatar`.) -/
def showNextUser (s : RotState) : RotState × Option Img :=
  if s.users.length = 0 then
    setImageIfChangedS s noUsersImage "noUsers"
  else
    updateDisplay
      { s with
        currentUserIndex := (s.currentUserIndex + 1) % s.users.length,
        currentAvatarImage := s.nextAvatarImage,
        nextAvatarImage := none }

/-- Embedding of `TeamsRotating.completeTransition` (normal completion of a
transition): stop the frame timer (external), clear `isTransitioning`,
advance the index modulo the roster length, promote `nextAvatarImage` to
`currentAvatarImage`, clear the next slot, update the display, and discard
the frame buffers. -/
def completeTransition (s : RotState) : RotState × Option Img :=
  let r := updateDisplay
    { s with
      isTransitioning := false,
      currentUserIndex := (s.currentUserIndex + 1) % s.users.length,
      currentAvatarImage := s.nextAvatarImage,
      nextAvatarImage := none }
  ({ r.1 with transitionFrames := [] }, r.2)

/-- Embedding of `TeamsRotating.forceCompleteTransition` (the 2-second
safety-timeout path): stop the frame timer (external), clear
`isTransitioning`, discard the frame buffers, and update the display —
the source comment reads "Just update display without changing user":
no index advance and no image promotion happen here. -/
def forceCompleteTransition (s : RotState) : RotState × Option Img :=
  updateDisplay { s with isTransitioning := false, transitionFrames := [] }

/-- One tick of the 24fps playback interval in `TeamsRotating.playTransition`:
while frames remain, write the current frame directly via `setImage`
(unconditionally — no dedup guard) and advance the frame counter; once past
the last frame, run `completeTransition`. -/
def playTransitionTick (s : RotState) : RotState × Option Img :=
  if h : s.currentFrameIndex < s.transitionFrames.length then
    ({ s with currentFrameIndex := s.currentFrameIndex + 1 },
      some (s.transitionFrames.get ⟨s.currentFrameIndex, h⟩))
  else
    completeTransition s

/-! ### Theorems -/

lemma overlayCountOnImage_zero (img : Img) :
    overlayCountOnImage img 0 = Img.png [DrawOp.drawImage img 1] := by
  simp [overlayCountOnImage]

/-- C3 counterexample: `overlayCountOnImage` with `count = 0` is not the
identity on the encoded image.  A JPEG base image (e.g. a webhook avatar
delivered as `image/jpeg`, preserved by `blobToDataUrl`) comes back as the
canvas's PNG re-encoding, a different data URL. -/
theorem overlayCount_zero_not_identity :
    overlayCountOnImage (Img.blob 0 "image/jpeg") 0 ≠ Img.blob 0 "image/jpeg" := by
  intro h
  have h2 := congrArg Img.mime h
  simp [overlayCountOnImage, Img.mime] at h2

/-- C3 (amended): with `count = 0` no badge is drawn — the produced canvas
contains exactly the single draw of the base image — but the function
returns `canvas.toDataURL('image/png')`, a PNG encoding of that canvas, so
the result's MIME type is always `image/png` whatever the input was.
Pixel content is preserved, yet the identity on the encoded image fails in
general: a non-PNG input (see the counterexample) cannot round-trip. -/
theorem overlayCount_zero_spec (img : Img) :
    overlayCountOnImage img 0 = Img.png [DrawOp.drawImage img 1] ∧
    (overlayCountOnImage img 0).mime = "image/png" :=
  ⟨overlayCountOnImage_zero img, rfl⟩

/-- C4: transition-frame generation produces exactly 25 frames indexed
0..24; frame `i` clears to black, draws the current image at opacity
`1 - i/24` and the next image at opacity `i/24`; frame 0 is 100% current /
0% next and frame 24 is 0% current / 100% next. -/
theorem generateTransitionFrames_spec (cur next : Img) :
    (generateTransitionFrames cur next).length = 25 ∧
    (∀ i : ℕ, i < 25 →
      (generateTransitionFrames cur next)[i]? =
        some (Img.png
          [DrawOp.fillRect "#000000" 1,
           DrawOp.drawImage cur (1 - (i : ℚ) / 24),
           DrawOp.drawImage next ((i : ℚ) / 24)])) ∧
    (generateTransitionFrames cur next)[0]? =
      some (Img.png
        [DrawOp.fillRect "#000000" 1,
         DrawOp.drawImage cur 1,
         DrawOp.drawImage next 0]) ∧
    (generateTransitionFrames cur next)[24]? =
      some (Img.png
        [DrawOp.fillRect "#000000" 1,
         DrawOp.drawImage cur 0,
         DrawOp.drawImage next 1]) := by
  have hget : ∀ i : ℕ, i < 25 →
      (generateTransitionFrames cur next)[i]? =
        some (Img.png
          [DrawOp.fillRect "#000000" 1,
           DrawOp.drawImage cur (1 - (i : ℚ) / 24),
           DrawOp.drawImage next ((i : ℚ) / 24)]) := by
    intro i hi
    unfold generateTransitionFrames
    rw [List.getElem?_map, List.getElem?_range hi, Option.map_some']
  refine ⟨by rw [generateTransitionFrames, List.length_map, List.length_range], hget, ?_, ?_⟩
  · have h0 := hget 0 (by norm_num)
    rw [h0]
    norm_num
  · have h24 := hget 24 (by norm_num)
    rw [h24]
    norm_num

/-- C4 witness: a concrete instantiation, at frame 6 of a transition
between two fetched blobs (opacities 3/4 and 1/4). -/
theorem generateTransitionFrames_spec_witness :
    (generateTransitionFrames (Img.blob 0 "image/jpeg") (Img.blob 1 "image/png")).length = 25 ∧
    (generateTransitionFrames (Img.blob 0 "image/jpeg") (Img.blob 1 "image/png"))[6]? =
      some (Img.png
        [DrawOp.fillRect "#000000" 1,
         DrawOp.drawImage (Img.blob 0 "image/jpeg") (1 - ((6 : Nat) : ℚ) / 24),
         DrawOp.drawImage (Img.blob 1 "image/png") (((6 : Nat) : ℚ) / 24)]) :=
  ⟨(generateTransitionFrames_spec (Img.blob 0 "image/jpeg") (Img.blob 1 "image/png")).1,
   (generateTransitionFrames_spec (Img.blob 0 "image/jpeg") (Img.blob 1 "image/png")).2.1
     6 (by norm_num)⟩

/-! ### Spec-side description of initials rendering (for the refinement
claim about `generateInitialsImage`): these three definitions follow the
spec's words — initials are the uppercased first letters of the first two
tokens, the hash is the 32-bit signed rolling hash `h = h*31 + charCode`
over the full name, and the background colour is `palette[abs(h) mod 8]`. -/

/-- The spec's rolling hash: `h := toInt32 (h*31 + charCode)` over the name. -/
def specRollingHash (name : String) : Int :=
  name.data.foldl (fun h c => toInt32 (31 * h + c.toNat)) 0

/-- The spec's initials: first letter of the first two nonempty tokens,
uppercased. -/
def specInitials (name : String) : String :=
  String.join ((((name.splitOn " ").filter (fun t => t ≠ "")).take 2).map firstUpper)

/-- The spec's background colour: `palette[abs(h) mod 8]`. -/
def specBackgroundColor (name : String) : String :=
  colors.getD ((specRollingHash name).natAbs % 8) ""

lemma jsHashStep_eq_spec (a : Int) (c : Nat) :
    jsHashStep a c = toInt32 (31 * a + c) := by
  unfold jsHashStep toInt32
  omega

lemma jsHash_eq_specRollingHash (name : String) :
    jsHash name = specRollingHash name :=
  List.foldl_ext _ _ 0 (fun a c _ => jsHashStep_eq_spec a c.toNat)

lemma length_pos_decide_eq_ne_empty (s : String) :
    (decide (s.length > 0)) = (decide (s ≠ "")) := by
  rcases s with ⟨data⟩
  cases data <;> simp [String.length, String.ext_iff]

lemma computedInitials_eq_specInitials (name : String) :
    computedInitials name = specInitials name := by
  unfold computedInitials specInitials
  rw [List.map_take, List.filter_congr (fun t _ => length_pos_decide_eq_ne_empty t)]

/-- C7: initials rendering is a deterministic pure function of the display
name.  Without an override, the rendered image is the background fill with
the colour `palette[abs(h) mod 8]` — `h` the 32-bit signed rolling hash
`h = h*31 + charCode` over the full name — under the black-stroked, white-filled
initials taken as the uppercased first letters of the first two nonempty
space-separated tokens; with the override `"WF"` (passed for the bot display
name `"Workflows"`) the rendered text is exactly `"WF"` while the colour
still hashes the full name. -/
theorem generateInitialsImage_spec (name : String) :
    generateInitialsImage name none =
      Img.png
        [DrawOp.fillRect (specBackgroundColor name) 1,
         DrawOp.strokeText (specInitials name) "#000000" 2 1,
         DrawOp.fillText (specInitials name) "#ffffff" 1] ∧
    generateInitialsImage "Workflows" (some "WF") =
      Img.png
        [DrawOp.fillRect (specBackgroundColor "Workflows") 1,
         DrawOp.strokeText "WF" "#000000" 2 1,
         DrawOp.fillText "WF" "#ffffff" 1] := by
  constructor
  · unfold generateInitialsImage specBackgroundColor
    rw [jsHash_eq_specRollingHash, computedInitials_eq_specInitials]
    rfl
  · unfold generateInitialsImage specBackgroundColor
    rw [jsHash_eq_specRollingHash]
    rfl

instance : IsTotal User (fun a b => countD b ≤ countD a) :=
  ⟨fun a b => (le_total (countD b) (countD a)).imp id id⟩

instance : IsTrans User (fun a b => countD b ≤ countD a) :=
  ⟨fun _ _ _ hab hbc => le_trans hbc hab⟩

lemma filter_orderedInsert_count (u : User) (l : List User) (c : Nat) :
    (List.orderedInsert (fun a b => countD b ≤ countD a) u l).filter
        (fun v => countD v == c) =
      (if countD u == c then [u] else []) ++ l.filter (fun v => countD v == c) := by
  induction l with
  | nil =>
    simp only [List.orderedInsert, List.filter]
    cases h : (countD u == c) <;> simp [h]
  | cons v vs ih =>
    simp only [List.orderedInsert]
    by_cases h : countD v ≤ countD u
    · simp only [if_pos h, List.filter_cons]
      cases hu : (countD u == c) <;> simp [hu]
    · simp only [if_neg h, List.filter_cons]
      cases hv : (countD v == c)
      · simpa [hv] using ih
      · have hvc : countD v = c := by simpa using hv
        have hu : (countD u == c) = false := by
          simp only [beq_eq_false_iff_ne, ne_eq]
          intro huc
          exact h (le_of_eq (hvc.trans huc.symm))
        simp only [hu, List.cons_append, List.nil_append] at ih ⊢
        simp [hv, ih]

lemma filter_sortUsersByCountDesc (l : List User) (c : Nat) :
    (sortUsersByCountDesc l).filter (fun v => countD v == c) =
      l.filter (fun v => countD v == c) := by
  induction l with
  | nil => rfl
  | cons u us ih =>
    unfold sortUsersByCountDesc at ih ⊢
    simp only [List.insertionSort]
    rw [filter_orderedInsert_count, ih, List.filter_cons]
    cases hu : (countD u == c) <;> simp [hu]

/-- C5: the roster sort in `fetchUsersData` is non-increasing by count
(missing counts defaulting to 0), it is a permutation of the webhook list,
and it is stable: for every count value, the subsequence of entries holding
that count is exactly the webhook-provided one, so equal-count entries keep
their relative order. -/
theorem sortUsers_spec (l : List User) :
    List.Sorted (fun a b => countD b ≤ countD a) (sortUsersByCountDesc l) ∧
    List.Perm (sortUsersByCountDesc l) l ∧
    ∀ c : Nat, (sortUsersByCountDesc l).filter (fun v => countD v == c) =
      l.filter (fun v => countD v == c) :=
  ⟨List.sorted_insertionSort _ l, List.perm_insertionSort _ l,
   filter_sortUsersByCountDesc l⟩


lemma findIndexJs_cons (p : User → Bool) (u : User) (us : List User) :
    findIndexJs p (u :: us) =
      if p u then 0
      else if findIndexJs p us = -1 then -1 else findIndexJs p us + 1 := rfl

lemma findIndexJs_cases (p : User → Bool) (l : List User) :
    findIndexJs p l = -1 ∨ 0 ≤ findIndexJs p l := by
  induction l with
  | nil => exact Or.inl rfl
  | cons u us ih =>
    rw [findIndexJs_cons]
    by_cases hp : p u = true
    · rw [if_pos hp]
      exact Or.inr le_rfl
    · rw [if_neg hp]
      by_cases hr : findIndexJs p us = -1
      · rw [if_pos hr]
        exact Or.inl rfl
      · rw [if_neg hr]
        rcases ih with h | h
        · exact absurd h hr
        · exact Or.inr (by omega)

lemma findIndexJs_nonneg_of_ne (p : User → Bool) (l : List User)
    (h : findIndexJs p l ≠ -1) : 0 ≤ findIndexJs p l :=
  (findIndexJs_cases p l).resolve_left h

lemma findIndexJs_eq_neg_one_of_all (p : User → Bool) (l : List User)
    (hall : ∀ u ∈ l, p u = false) : findIndexJs p l = -1 := by
  induction l with
  | nil => rfl
  | cons u us ih =>
    have hpf : p u = false := hall u (List.mem_cons_self u us)
    have hr : findIndexJs p us = -1 :=
      ih (fun v hv => hall v (List.mem_cons_of_mem u hv))
    rw [findIndexJs_cons, if_neg (by simp [hpf]), if_pos hr]

lemma all_false_of_findIndexJs_eq_neg_one (p : User → Bool) (l : List User)
    (h : findIndexJs p l = -1) : ∀ u ∈ l, p u = false := by
  induction l with
  | nil => simp
  | cons u us ih =>
    rw [findIndexJs_cons] at h
    by_cases hp : p u = true
    · rw [if_pos hp] at h
      exact absurd h (by omega)
    · have hpf : p u = false := by simpa using hp
      rw [if_neg hp] at h
      intro v hv
      rcases List.mem_cons.mp hv with rfl | hv2
      · exact hpf
      · refine ih ?_ v hv2
        by_cases hr : findIndexJs p us = -1
        · exact hr
        · exfalso
          have hge := findIndexJs_nonneg_of_ne p us hr
          rw [if_neg hr] at h
          omega

lemma findIndexJs_first (p : User → Bool) (l : List User) (n : Nat)
    (h : findIndexJs p l = (n : Int)) :
    (l.get? n).map p = some true ∧
      ∀ j, j < n → (l.get? j).map p ≠ some true := by
  induction l generalizing n with
  | nil =>
    rw [show findIndexJs p [] = -1 from rfl] at h
    omega
  | cons u us ih =>
    rw [findIndexJs_cons] at h
    by_cases hp : p u = true
    · rw [if_pos hp] at h
      have hn : n = 0 := by omega
      subst hn
      simp [hp]
    · rw [if_neg hp] at h
      by_cases hr : findIndexJs p us = -1
      · rw [if_pos hr] at h
        exact absurd h (by omega)
      · have hge := findIndexJs_nonneg_of_ne p us hr
        rw [if_neg hr] at h
        obtain ⟨m, hm⟩ : ∃ m : Nat, findIndexJs p us = (m : Int) :=
          ⟨(findIndexJs p us).toNat, (Int.toNat_of_nonneg hge).symm⟩
        rw [hm] at h
        have hn : n = m + 1 := by omega
        subst hn
        obtain ⟨h1, h2⟩ := ih m hm
        refine ⟨by simpa using h1, ?_⟩
        intro j hj
        cases j with
        | zero =>
          have hpf : p u = false := by simpa using hp
          simp [hpf]
        | succ k =>
          have := h2 k (by omega)
          simpa using this

/-- C6: after a poll, if the previously-current user's `userId` occurs in
the newly fetched and re-sorted roster, the new `currentUserIndex` is the
first position of that `userId` there; if it does not occur, or there was
no previously-current user (`users[currentUserIndex]` undefined), the new
index is 0. -/
theorem fetchUsers_reanchor_spec (old : List User) (idx : Nat) (data : List User) :
    (old.get? idx = none → (fetchUsersReanchor old idx data).2 = 0) ∧
    ∀ cu, old.get? idx = some cu →
      ((∀ u ∈ (fetchUsersReanchor old idx data).1, u.userId ≠ cu.userId) →
        (fetchUsersReanchor old idx data).2 = 0) ∧
      ((∃ u ∈ (fetchUsersReanchor old idx data).1, u.userId = cu.userId) →
        ((fetchUsersReanchor old idx data).1.get?
            (fetchUsersReanchor old idx data).2).map User.userId = some cu.userId ∧
        ∀ j, j < (fetchUsersReanchor old idx data).2 →
          ((fetchUsersReanchor old idx data).1.get? j).map User.userId ≠
            some cu.userId) := by
  have hfst : (fetchUsersReanchor old idx data).1 = sortUsersByCountDesc data := rfl
  constructor
  · intro h
    show (match old.get? idx with
      | none => 0
      | some currentUser =>
        if findIndexJs (fun u => u.userId == currentUser.userId)
            (sortUsersByCountDesc data) = -1 then 0
        else (findIndexJs (fun u => u.userId == currentUser.userId)
            (sortUsersByCountDesc data)).toNat) = 0
    rw [h]
  · intro cu hcu
    have hsnd : (fetchUsersReanchor old idx data).2 =
        (if findIndexJs (fun u => u.userId == cu.userId)
            (sortUsersByCountDesc data) = -1 then 0
        else (findIndexJs (fun u => u.userId == cu.userId)
            (sortUsersByCountDesc data)).toNat) := by
      show (match old.get? idx with
        | none => 0
        | some currentUser =>
          if findIndexJs (fun u => u.userId == currentUser.userId)
              (sortUsersByCountDesc data) = -1 then 0
          else (findIndexJs (fun u => u.userId == currentUser.userId)
              (sortUsersByCountDesc data)).toNat) = _
      rw [hcu]
    set sorted := sortUsersByCountDesc data with hs
    set p : User → Bool := fun u => u.userId == cu.userId with hp
    constructor
    · intro habs
      rw [hfst] at habs
      have hall : findIndexJs p sorted = -1 := by
        apply findIndexJs_eq_neg_one_of_all
        intro v hv
        simp only [hp, beq_eq_false_iff_ne, ne_eq]
        exact habs v hv
      rw [hsnd, if_pos hall]
    · rintro ⟨w, hw, hwid⟩
      rw [hfst] at hw
      have hne : findIndexJs p sorted ≠ -1 := by
        intro h0
        have := all_false_of_findIndexJs_eq_neg_one p sorted h0 w hw
        simp only [hp, beq_eq_false_iff_ne, ne_eq] at this
        exact this hwid
      have hge := findIndexJs_nonneg_of_ne p sorted hne
      obtain ⟨m, hm⟩ : ∃ m : Nat, findIndexJs p sorted = (m : Int) :=
        ⟨(findIndexJs p sorted).toNat, (Int.toNat_of_nonneg hge).symm⟩
      obtain ⟨h1, h2⟩ := findIndexJs_first p sorted m hm
      rw [hsnd, hm, if_neg (by omega : ¬ ((m : Int) = -1))]
      rw [hfst]
      simp only [Int.toNat_ofNat]
      constructor
      · rcases hq : sorted.get? m with _ | u
        · rw [hq] at h1
          simp at h1
        · rw [hq] at h1
          simp only [Option.map_some'] at h1 ⊢
          have hput : p u = true := by simpa using h1
          rw [hp] at hput
          simp only [beq_iff_eq] at hput
          rw [hput]
      · intro j hj
        have hj2 := h2 j hj
        rcases hq : sorted.get? j with _ | u
        · simp
        · rw [hq] at hj2
          simp only [Option.map_some'] at hj2 ⊢
          intro hc
          apply hj2
          have huid : u.userId = cu.userId := by simpa using hc
          rw [hp]
          simp [huid]

/-- C6 witness: concrete roster poll.  The previous current user `"u2"`
(count 7) reappears in the re-sorted roster `[u2, u3, u1]` at position 0,
and the re-anchored index points at it. -/
def rosterOld : List User := [{ userId := "u2", count := some 7 }]

def rosterNew : List User :=
  [{ userId := "u1", count := some 3 },
   { userId := "u2", count := some 7 },
   { userId := "u3", count := some 7 }]

theorem fetchUsers_reanchor_spec_witness :
    ((fetchUsersReanchor rosterOld 0 rosterNew).1.get?
        (fetchUsersReanchor rosterOld 0 rosterNew).2).map User.userId =
      some "u2" ∧
    ∀ j, j < (fetchUsersReanchor rosterOld 0 rosterNew).2 →
      ((fetchUsersReanchor rosterOld 0 rosterNew).1.get? j).map User.userId ≠
        some "u2" :=
  ((fetchUsers_reanchor_spec rosterOld 0 rosterNew).2
    { userId := "u2", count := some 7 } rfl).2 (by decide)

lemma lookup_set_self (c : Cache) (k : String) (img : Img) :
    Cache.lookup (Cache.set c k img) k = some img := by
  simp [Cache.lookup, Cache.set, List.lookup]

lemma prefetchAvatar_hit (cache : Cache) (u : User) (url : Option String)
    (o : FetchOutcome) (img : Img) (h : ¬ u.userId.length = 0)
    (hk : Cache.lookup cache (cacheKey u) = some img) :
    prefetchAvatar cache u url o = ⟨some img, cache, false⟩ := by
  simp only [prefetchAvatar, if_neg h, hk]

lemma prefetchAvatar_miss (cache : Cache) (u : User) (url : Option String)
    (o : FetchOutcome) (h : ¬ u.userId.length = 0)
    (hk : Cache.lookup cache (cacheKey u) = none) :
    ∃ img : Img, prefetchAvatar cache u url o =
      ⟨some img, Cache.set cache (cacheKey u) img, true⟩ := by
  by_cases hb : u.fromType = some "bot"
  · exact ⟨overlayCountOnImage
        (generateInitialsImage (displayNameOr u) (overrideFor u)) (countD u),
      by simp only [prefetchAvatar, if_neg h, hk, if_pos hb]⟩
  · rcases url with _ | s
    · exact ⟨overlayCountOnImage (generateInitialsImage (displayNameOr u)) (countD u),
        by simp only [prefetchAvatar, if_neg h, hk, if_neg hb]⟩
    · by_cases hs : s.length = 0
      · exact ⟨overlayCountOnImage (generateInitialsImage (displayNameOr u)) (countD u),
          by simp only [prefetchAvatar, if_neg h, hk, if_neg hb, if_pos hs]⟩
      · cases o with
        | ok blob =>
          exact ⟨overlayCountOnImage blob (countD u),
            by simp only [prefetchAvatar, if_neg h, hk, if_neg hb, if_neg hs]⟩
        | httpError =>
          exact ⟨overlayCountOnImage (generateInitialsImage (displayNameOr u)) (countD u),
            by simp only [prefetchAvatar, if_neg h, hk, if_neg hb, if_neg hs]⟩
        | networkError =>
          exact ⟨overlayCountOnImage (generateInitialsImage (displayNameOr u)) (countD u),
            by simp only [prefetchAvatar, if_neg h, hk, if_neg hb, if_neg hs]⟩

/-- C8: the cache invariant of carousel avatar resolution.  Whenever a
resolution actually runs (the entry has a `userId`), it ends with the
composited image stored under `userId_count`; a second resolution for the
same `(userId, count)` returns that cached image with the cache unchanged
and performs no fetch or synthesis work; and the first resolution performs
work exactly when the key was not yet cached. -/
theorem prefetchAvatar_cache_invariant (cache : Cache) (u : User)
    (url : Option String) (o1 o2 : FetchOutcome) (h : ¬ u.userId.length = 0) :
    (prefetchAvatar cache u url o1).image.isSome = true ∧
    Cache.lookup (prefetchAvatar cache u url o1).cache (cacheKey u) =
      (prefetchAvatar cache u url o1).image ∧
    prefetchAvatar (prefetchAvatar cache u url o1).cache u url o2 =
      ⟨(prefetchAvatar cache u url o1).image,
       (prefetchAvatar cache u url o1).cache, false⟩ ∧
    (prefetchAvatar cache u url o1).didWork =
      (Cache.lookup cache (cacheKey u)).isNone := by
  rcases hk : Cache.lookup cache (cacheKey u) with _ | img
  · obtain ⟨img, heq⟩ := prefetchAvatar_miss cache u url o1 h hk
    rw [heq]
    refine ⟨rfl, lookup_set_self cache (cacheKey u) img, ?_, rfl⟩
    exact prefetchAvatar_hit _ u url o2 img h (lookup_set_self cache (cacheKey u) img)
  · rw [prefetchAvatar_hit cache u url o1 img h hk]
    refine ⟨rfl, hk, ?_, rfl⟩
    exact prefetchAvatar_hit cache u url o2 img h hk

/-- The concrete user and webhook URL used by the C8 witness. -/
def wUser : User := { userId := "u1", displayName := some "John Doe", count := some 5 }

def wUrl : Option String := some "https://wh.example/avatar"

/-- C8 witness: a concrete two-resolution run for the user `"u1"` with
count 5 against an empty cache; the first resolution hits the webhook
(HTTP failure), the second is served from the cache. -/
theorem prefetchAvatar_cache_invariant_witness :
    (prefetchAvatar [] wUser wUrl FetchOutcome.httpError).image.isSome = true ∧
    Cache.lookup (prefetchAvatar [] wUser wUrl FetchOutcome.httpError).cache
      (cacheKey wUser) =
      (prefetchAvatar [] wUser wUrl FetchOutcome.httpError).image ∧
    prefetchAvatar (prefetchAvatar [] wUser wUrl FetchOutcome.httpError).cache
      wUser wUrl FetchOutcome.networkError =
      ⟨(prefetchAvatar [] wUser wUrl FetchOutcome.httpError).image,
       (prefetchAvatar [] wUser wUrl FetchOutcome.httpError).cache, false⟩ ∧
    (prefetchAvatar [] wUser wUrl FetchOutcome.httpError).didWork =
      (Cache.lookup [] (cacheKey wUser)).isNone :=
  prefetchAvatar_cache_invariant [] wUser wUrl FetchOutcome.httpError
    FetchOutcome.networkError (by decide)

/-- C2 counterexample: in single-avatar mode (`TeamsAvatar.fetchData`,
query by email), a non-OK avatar response does NOT fall back to initials
and does NOT cache anything: with an empty cache and HTTP 404 for `"u1"`,
the avatar image stays absent and the cache stays empty — contradicting the
claim that both modes synthesize, composite and cache an initials image. -/
theorem avatarFallback_single_mode_cex :
    (fetchDataAvatarStep [] "u1" none FetchOutcome.httpError).1 = none ∧
    Cache.lookup (fetchDataAvatarStep [] "u1" none FetchOutcome.httpError).2.1
      "u1" = none :=
  ⟨rfl, rfl⟩

/-- C2 (amended): the swallow-and-fall-back behaviour holds in carousel
mode only.  There, for every non-bot roster entry with a `userId`, a
configured webhook URL and an uncached key, an HTTP failure or thrown
network error yields the initials-synthesized, badge-composited image,
stores it in the cache and reports completed work — no error escapes.  In
single-avatar mode, a non-OK response leaves the previous avatar and the
cache untouched, and a thrown network error additionally propagates to
`fetchData`'s catch block (which displays the static error image). -/
theorem avatarFallback_amended :
    (∀ (cache : Cache) (u : User) (url : String) (o : FetchOutcome),
      ¬ u.userId.length = 0 → ¬ url.length = 0 → ¬ u.fromType = some "bot" →
      Cache.lookup cache (cacheKey u) = none →
      (o = FetchOutcome.httpError ∨ o = FetchOutcome.networkError) →
      prefetchAvatar cache u (some url) o =
        ⟨some (overlayCountOnImage (generateInitialsImage (displayNameOr u)) (countD u)),
         Cache.set cache (cacheKey u)
           (overlayCountOnImage (generateInitialsImage (displayNameOr u)) (countD u)),
         true⟩) ∧
    (∀ (cache : Cache) (email : String) (prev : Option Img),
      Cache.lookup cache email = none →
      fetchDataAvatarStep cache email prev FetchOutcome.httpError =
        (prev, cache, false) ∧
      fetchDataAvatarStep cache email prev FetchOutcome.networkError =
        (prev, cache, true)) := by
  constructor
  · intro cache u url o hu hs hb hk ho
    rcases ho with rfl | rfl <;>
      simp only [prefetchAvatar, if_neg hu, hk, if_neg hb, if_neg hs]
  · intro cache email prev hk
    exact ⟨by simp only [fetchDataAvatarStep, hk], by simp only [fetchDataAvatarStep, hk]⟩

/-- C2 witness: concrete runs of both conjuncts — carousel fallback for
`wUser` on HTTP failure, and single-avatar no-op on HTTP failure plus
propagation on network error. -/
theorem avatarFallback_amended_witness :
    prefetchAvatar [] wUser (some "https://wh.example/avatar") FetchOutcome.httpError =
      ⟨some (overlayCountOnImage (generateInitialsImage (displayNameOr wUser)) (countD wUser)),
       Cache.set [] (cacheKey wUser)
         (overlayCountOnImage (generateInitialsImage (displayNameOr wUser)) (countD wUser)),
       true⟩ ∧
    fetchDataAvatarStep [] "alice@example.com" none FetchOutcome.httpError =
      (none, [], false) ∧
    fetchDataAvatarStep [] "alice@example.com" none FetchOutcome.networkError =
      (none, [], true) :=
  ⟨avatarFallback_amended.1 [] wUser "https://wh.example/avatar"
      FetchOutcome.httpError (by decide) (by decide) (by decide) rfl (Or.inl rfl),
   (avatarFallback_amended.2 [] "alice@example.com" none rfl).1,
   (avatarFallback_amended.2 [] "alice@example.com" none rfl).2⟩

lemma updateDisplay_preserves (s : RotState) :
    (updateDisplay s).1.users = s.users ∧
    (updateDisplay s).1.currentUserIndex = s.currentUserIndex ∧
    (updateDisplay s).1.isTransitioning = s.isTransitioning ∧
    (updateDisplay s).1.transitionFrames = s.transitionFrames ∧
    (s.currentAvatarImage.isSome = true →
      (updateDisplay s).1.currentAvatarImage = s.currentAvatarImage ∧
      (updateDisplay s).1.nextAvatarImage = s.nextAvatarImage) := by
  unfold updateDisplay setImageIfChangedS
  by_cases h0 : s.users.length = 0
  · rw [if_pos h0]
    split <;> simp
  · rw [if_neg h0]
    cases hc : s.currentAvatarImage with
    | some img =>
      dsimp only
      split <;> simp [hc]
    | none =>
      dsimp only
      cases hn : s.nextAvatarImage with
      | some img2 =>
        dsimp only
        split <;> simp [hc]
      | none =>
        simp [hc]

/-- The concrete mid-transition session state used for the C1
counterexample: two users, both images present, playback under way. -/
def cexTransitionState : RotState :=
  { users := [{ userId := "u1", count := some 2 }, { userId := "u2", count := some 1 }],
    currentUserIndex := 0,
    currentAvatarImage := some (Img.blob 0 "image/png"),
    nextAvatarImage := some (Img.blob 1 "image/png"),
    isTransitioning := true,
    transitionFrames := [Img.blob 0 "image/png"],
    currentFrameIndex := 0,
    lastDisplayedState := some "transitioning" }

/-- C1 counterexample: when the safety timeout forces completion,
`currentUserIndex` stays 0 (the claim required advancing to
`(0+1) % 2 = 1`), `nextAvatarImage` is not promoted and not cleared, and
the display shows the unchanged current user's image again. -/
theorem forceCompleteTransition_cex :
    (forceCompleteTransition cexTransitionState).1.currentUserIndex = 0 ∧
    (forceCompleteTransition cexTransitionState).1.currentAvatarImage =
      some (Img.blob 0 "image/png") ∧
    (forceCompleteTransition cexTransitionState).1.nextAvatarImage =
      some (Img.blob 1 "image/png") ∧
    (forceCompleteTransition cexTransitionState).2 = some (Img.blob 0 "image/png") ∧
    (cexTransitionState.currentUserIndex + 1) % cexTransitionState.users.length = 1 :=
  ⟨rfl, rfl, rfl, rfl, rfl⟩

/-- C1 (amended): when the 2-second safety timeout fires, the session
force-completes the transition: `isTransitioning` becomes false and the
frame sequence is discarded — but unlike normal completion,
`currentUserIndex` is NOT advanced and, whenever a current image is
present, `nextAvatarImage` is NOT promoted and NOT cleared; the display is
refreshed with the unchanged current user. -/
theorem forceCompleteTransition_amended (s : RotState) :
    (forceCompleteTransition s).1.isTransitioning = false ∧
    (forceCompleteTransition s).1.transitionFrames = [] ∧
    (forceCompleteTransition s).1.currentUserIndex = s.currentUserIndex ∧
    (forceCompleteTransition s).1.users = s.users ∧
    (s.currentAvatarImage.isSome = true →
      (forceCompleteTransition s).1.currentAvatarImage = s.currentAvatarImage ∧
      (forceCompleteTransition s).1.nextAvatarImage = s.nextAvatarImage) := by
  unfold forceCompleteTransition
  obtain ⟨h1, h2, h3, h4, h5⟩ :=
    updateDisplay_preserves { s with isTransitioning := false, transitionFrames := [] }
  exact ⟨h3, h4, h2, h1, h5⟩

/-- C1 witness: the amended theorem instantiated at the concrete
mid-transition state with both images present. -/
theorem forceCompleteTransition_amended_witness :
    (forceCompleteTransition cexTransitionState).1.isTransitioning = false ∧
    (forceCompleteTransition cexTransitionState).1.transitionFrames = [] ∧
    (forceCompleteTransition cexTransitionState).1.currentUserIndex =
      cexTransitionState.currentUserIndex ∧
    (forceCompleteTransition cexTransitionState).1.users = cexTransitionState.users ∧
    ((forceCompleteTransition cexTransitionState).1.currentAvatarImage =
        cexTransitionState.currentAvatarImage ∧
      (forceCompleteTransition cexTransitionState).1.nextAvatarImage =
        cexTransitionState.nextAvatarImage) :=
  ⟨(forceCompleteTransition_amended cexTransitionState).1,
   (forceCompleteTransition_amended cexTransitionState).2.1,
   (forceCompleteTransition_amended cexTransitionState).2.2.1,
   (forceCompleteTransition_amended cexTransitionState).2.2.2.1,
   (forceCompleteTransition_amended cexTransitionState).2.2.2.2 rfl⟩

/-- C9: display-update deduplication.  Two consecutive dedup-guarded writes
with the same state key perform exactly one underlying `setImage` (the
first writes, the second is skipped); and during transition playback every
remaining frame is written unconditionally, whatever the dedup key holds. -/
theorem displayDedup_spec :
    (∀ (s : RotState) (img1 img2 : Img) (key : String),
      ¬ s.lastDisplayedState = some key →
      (setImageIfChangedS s img1 key).2 = some img1 ∧
      (setImageIfChangedS (setImageIfChangedS s img1 key).1 img2 key).2 = none) ∧
    (∀ s : RotState, ∀ h : s.currentFrameIndex < s.transitionFrames.length,
      (playTransitionTick s).2 =
        some (s.transitionFrames.get ⟨s.currentFrameIndex, h⟩)) := by
  constructor
  · intro s img1 img2 key h
    constructor
    · simp [setImageIfChangedS, h]
    · simp [setImageIfChangedS, h]
  · intro s h
    simp [playTransitionTick, h]

/-- The concrete session state used by the C9 witness: mid-playback with a
stale dedup key. -/
def dedupState : RotState :=
  { users := [wUser],
    currentUserIndex := 0,
    currentAvatarImage := none,
    nextAvatarImage := none,
    isTransitioning := true,
    transitionFrames := [Img.blob 3 "image/png", Img.blob 4 "image/png"],
    currentFrameIndex := 1,
    lastDisplayedState := some "avatar:u1_5_0" }

/-- C9 witness: at `dedupState`, a fresh key is written once then skipped,
and the playback tick writes frame 1 despite the unrelated dedup key. -/
theorem displayDedup_spec_witness :
    ((setImageIfChangedS dedupState (Img.blob 7 "image/png") "noUsers").2 =
        some (Img.blob 7 "image/png") ∧
      (setImageIfChangedS
        (setImageIfChangedS dedupState (Img.blob 7 "image/png") "noUsers").1
        (Img.blob 8 "image/png") "noUsers").2 = none) ∧
    (playTransitionTick dedupState).2 = some (Img.blob 4 "image/png") :=
  ⟨displayDedup_spec.1 dedupState (Img.blob 7 "image/png") (Img.blob 8 "image/png")
      "noUsers" (by decide),
   displayDedup_spec.2 dedupState (by decide)⟩

/-- C10: `showNextUser` with a non-empty roster advances the index by one
modulo the roster length and unconditionally moves `nextAvatarImage`
(possibly `null`) into `currentAvatarImage`, clearing the next slot; when
the pre-fetch had not yet delivered (`nextAvatarImage = null`), the ensuing
display update writes no image, so the previously displayed avatar stays on
screen although the index advanced. -/
theorem showNextUser_spec (s : RotState) (h : ¬ s.users.length = 0) :
    (showNextUser s).1.currentUserIndex = (s.currentUserIndex + 1) % s.users.length ∧
    (showNextUser s).1.currentAvatarImage = s.nextAvatarImage ∧
    (showNextUser s).1.nextAvatarImage = none ∧
    (s.nextAvatarImage = none → (showNextUser s).2 = none) := by
  unfold showNextUser
  rw [if_neg h]
  unfold updateDisplay setImageIfChangedS
  rw [if_neg (by simpa using h)]
  cases hn : s.nextAvatarImage with
  | none => simp [hn]
  | some img =>
    dsimp only
    split <;> simp [hn]

/-- The concrete session state used by the C10 witness: the pre-fetch has
not completed, so both image slots end up empty. -/
def pendingState : RotState :=
  { users := [wUser, { userId := "u2", count := some 1 }],
    currentUserIndex := 1,
    currentAvatarImage := some (Img.blob 0 "image/png"),
    nextAvatarImage := none,
    isTransitioning := false,
    transitionFrames := [],
    currentFrameIndex := 0,
    lastDisplayedState := some "avatar:u2_1_1" }

/-- C10 witness: at `pendingState` the manual advance wraps the index from
1 to 0, leaves both image slots empty, and writes nothing. -/
theorem showNextUser_spec_witness :
    (showNextUser pendingState).1.currentUserIndex =
      (pendingState.currentUserIndex + 1) % pendingState.users.length ∧
    (showNextUser pendingState).1.currentAvatarImage = pendingState.nextAvatarImage ∧
    (showNextUser pendingState).1.nextAvatarImage = none ∧
    (showNextUser pendingState).2 = none :=
  ⟨(showNextUser_spec pendingState (by decide)).1,
   (showNextUser_spec pendingState (by decide)).2.1,
   (showNextUser_spec pendingState (by decide)).2.2.1,
   (showNextUser_spec pendingState (by decide)).2.2.2 rfl⟩

end TeamsPlugin
